import Mathlib

/-!
Verification of the fetch-and-extract engine of the MCP web-tools repository
(`tools/mcp_web_fetch/fetch_api.py` and `tools/mcp_web_fetch/constants.py`).

Python strings are modelled as `List Char`.  External collaborators
(the HTTP transport, BeautifulSoup parse results, trafilatura/readability
extractors, `json` serialisation, `urllib` URL parsing/joining and the random
number generator) are modelled as explicit oracle inputs; every decision made
by the repository's own code is translated directly from the source.
-/

namespace WebFetch

/-- Python string model: a list of characters. -/
abbrev Str := List Char

/-- Characters matched by the regex class `[ \t]`. -/
def isSpaceTab (c : Char) : Bool := c = ' ' || c = '\t'

/-- ASCII whitespace as used by Python `str.split()` / `str.strip()`
(space, tab, newline, carriage return, vertical tab, form feed). -/
def isPySpace (c : Char) : Bool :=
  c = ' ' || c = '\t' || c = '\n' || c = '\r' || c = Char.ofNat 11 || c = Char.ofNat 12

/-- Model of Python `str.lower()` (ASCII case folding). -/
def pyLower (s : Str) : Str := s.map Char.toLower

/-- Model of Python `str.strip()` with no arguments. -/
def pyStrip (s : Str) : Str :=
  ((s.dropWhile isPySpace).reverse.dropWhile isPySpace).reverse

/-- Model of Python `str.startswith(other)`: `strStarts pre s` is true when
`pre` occurs at the beginning of `s`. -/
def strStarts : Str → Str → Bool
  | [], _ => true
  | _ :: _, [] => false
  | a :: as, b :: bs => a = b && strStarts as bs

/-- Model of the Python substring test `sub in s`. -/
def strIn (sub : Str) : Str → Bool
  | [] => sub.isEmpty
  | c :: rest => strStarts sub (c :: rest) || strIn sub rest

/-- Token counter behind `len(s.split())`: the Boolean flag records whether the
scan is currently inside a token. -/
def splitCount : Str → Bool → Nat
  | [], _ => 0
  | c :: rest, inTok =>
    if isPySpace c then splitCount rest false
    else (if inTok then 0 else 1) + splitCount rest true

/-- Model of Python `len(s.split())`: the number of maximal whitespace-free
runs of `s`. -/
def wordCount (s : Str) : Nat := splitCount s false

/-- `constants.py`: `MAX_CONTENT_SIZE = 500 * 1024 * 1024`. -/
def MAX_CONTENT_SIZE : Nat := 500 * 1024 * 1024

/-- `constants.py`: `MAX_EXTRACTED_TEXT_LENGTH = 2000000`. -/
def MAX_EXTRACTED_TEXT_LENGTH : Nat := 2000000

/-- `constants.py`: `EXTRACT_LINKS = True`. -/
def EXTRACT_LINKS : Bool := true

/-- `constants.py`: `MAX_LINKS_EXTRACT = 300`. -/
def MAX_LINKS_EXTRACT : Nat := 300

/-- `constants.py`: `JS_RENDERING_ENABLED = True`. -/
def JS_RENDERING_ENABLED : Bool := true

/-- `constants.py`: `MAX_RETRY_ATTEMPTS = 5`. -/
def MAX_RETRY_ATTEMPTS : Nat := 5

/-- `constants.py`: `RETRY_DELAY = 2` (seconds, used as the base delay). -/
def RETRY_DELAY : ℚ := 2

/-- `constants.py`: `RETRIABLE_STATUS_CODES`. -/
def RETRIABLE_STATUS_CODES : List Nat := [429, 500, 502, 503, 504, 520, 521, 522, 523, 524]

/-- `constants.py`: `RETRIABLE_EXCEPTIONS` (exception class names). -/
def RETRIABLE_EXCEPTIONS : List Str :=
  ["ConnectionError".data, "Timeout".data, "SSLError".data, "TooManyRedirects".data,
   "ChunkedEncodingError".data, "ContentDecodingError".data, "HTTPError".data]

/-- `constants.py`: `SUPPORTED_CONTENT_TYPES` (including the two deliberate
partial entries `text/` and `application/x-`). -/
def SUPPORTED_CONTENT_TYPES : List Str :=
  ["text/html".data, "text/plain".data, "application/json".data, "application/xml".data,
   "text/xml".data, "application/rss+xml".data, "application/atom+xml".data, "text/css".data,
   "application/javascript".data, "text/javascript".data, "application/xhtml+xml".data,
   "text/csv".data, "application/x-www-form-urlencoded".data,
   "text/".data, "application/x-".data]

/-- The `fib_sequence` table inside `_calculate_retry_delay`. -/
def fibSequence : List ℚ := [1, 1, 2, 3, 5, 8, 13, 21, 34]

/-- `WebContentFetcher._calculate_retry_delay`, translated from the source.
`strategy` is the configured retry strategy name, `attempt` is zero-based and
`jitter` is the value sampled by `random.uniform(-base*0.3, base*0.3)` in the
`random_jitter` branch (an oracle input; it is ignored by the other
strategies). -/
def calculate_retry_delay (strategy : Str) (attempt : Nat) (jitter : ℚ) : ℚ :=
  let base_delay : ℚ := RETRY_DELAY
  let delay : ℚ :=
    if strategy = "exponential_backoff".data then base_delay * 2 ^ attempt
    else if strategy = "linear_progression".data then base_delay * (attempt + 1)
    else if strategy = "fibonacci_sequence".data then
      base_delay * fibSequence.getD (min attempt (fibSequence.length - 1)) 0
    else if strategy = "random_jitter".data then
      max 1 (base_delay * (attempt + 1) + jitter)
    else base_delay * 2 ^ attempt
  min delay 60

/-- A Python exception, reduced to the data `_is_retriable_error` inspects:
its class name (`type(e).__name__`) and its message (`str(e)`). -/
structure PyExc where
  name : Str
  msg : Str
deriving DecidableEq

/-- The `retriable_patterns` keyword list inside `_is_retriable_error`. -/
def retriablePatterns : List Str :=
  ["connection".data, "timeout".data, "ssl".data, "certificate".data, "network".data,
   "temporary".data, "unavailable".data, "overloaded".data, "retry".data]

/-- `WebContentFetcher._is_retriable_error`, translated from the source.
`respStatus` is the status code of the optional response argument. -/
def is_retriable_error (e : PyExc) (respStatus : Option Nat) : Bool :=
  if (match respStatus with
      | some code => RETRIABLE_STATUS_CODES.contains code
      | none => false) then true
  else if RETRIABLE_EXCEPTIONS.contains e.name then true
  else retriablePatterns.any (fun p => strIn p (pyLower e.msg))

/-- `WebContentFetcher._is_supported_content_type`, translated from the
source: Python `in` is substring containment, so each allow-list entry is
matched as a substring, then any type starting with `text/`, then any type
containing `json` or `xml`. -/
def is_supported_content_type (ct : Str) : Bool :=
  SUPPORTED_CONTENT_TYPES.any (fun s => strIn s ct) ||
  strStarts "text/".data ct ||
  strIn "json".data ct ||
  strIn "xml".data ct

/-- A URL together with its `urllib.parse.urlparse` scheme and netloc
components (the parser itself is Python standard library, modelled as given
data). -/
structure URL where
  raw : Str
  scheme : Str
  netloc : Str
deriving DecidableEq

/-- `WebContentFetcher._is_valid_url`:
`all([result.scheme, result.netloc]) and result.scheme in ['http', 'https']`. -/
def is_valid_url (u : URL) : Bool :=
  (!u.scheme.isEmpty && !u.netloc.isEmpty) &&
  (u.scheme = "http".data || u.scheme = "https".data)

/-- An `<a href=...>` element as returned by `soup.find_all('a', href=True)`:
its `href` attribute and its raw `get_text()` value. -/
structure Anchor where
  href : Str
  text : Str
deriving DecidableEq

/-- An extracted link record `{'url': ..., 'text': ...}`. -/
structure Link where
  url : Str
  text : Str
deriving DecidableEq

/-- BeautifulSoup parse results for a given markup string, modelled as
oracles (the parser is an external library).  `anchorsOf` lists the anchor
elements having an `href`, in document order; `titleOf`/`h1Of` give the
`get_text()` of the first `<title>`/`<h1>` element when present;
`metaDescOf`/`ogDescOf` give the `content` attribute of the description /
Open Graph meta tag when present and non-empty; `textOf` is
`soup.get_text()`; `bodyChildrenOf` counts the direct children of `<body>`
when a body element exists. -/
structure SoupEnv where
  anchorsOf : Str → List Anchor
  titleOf : Str → Option Str
  h1Of : Str → Option Str
  metaDescOf : Str → Option Str
  ogDescOf : Str → Option Str
  textOf : Str → Str
  bodyChildrenOf : Str → Option Nat

/-- `WebContentFetcher._extract_title`. -/
def extract_title (soup : SoupEnv) (html : Str) : Str :=
  match soup.titleOf html with
  | some t => pyStrip t
  | none =>
    match soup.h1Of html with
    | some h => pyStrip h
    | none => "No title found".data

/-- `WebContentFetcher._extract_description`. -/
def extract_description (soup : SoupEnv) (html : Str) : Str :=
  match soup.metaDescOf html with
  | some c => pyStrip c
  | none =>
    match soup.ogDescOf html with
    | some c => pyStrip c
    | none => []

/-- `WebContentFetcher._extract_links`, translated from the source.
`uj` models `urllib.parse.urljoin`; the slice `[:100]` limits the scan to the
first 100 anchors before the text / absolute-URL filter is applied, and each
kept link stores the stripped text truncated to 200 characters. -/
def extract_links (uj : Str → Str → Str) (anchors : List Anchor) (base : Str) : List Link :=
  (anchors.take 100).filterMap fun a =>
    let text := pyStrip a.text
    let absUrl := uj base a.href
    if !text.isEmpty &&
        (strStarts "http://".data absUrl || strStarts "https://".data absUrl) then
      some { url := absUrl, text := text.take 200 }
    else none

/-- First regex of `_clean_text_content`: `re.sub(r'[ \t]+', ' ', text)` —
each maximal run of spaces/tabs becomes one space. -/
def collapseSpaces : Str → Str
  | [] => []
  | [c] => if isSpaceTab c then [' '] else [c]
  | c :: d :: rest =>
    if isSpaceTab c then
      if isSpaceTab d then collapseSpaces (d :: rest)
      else ' ' :: collapseSpaces (d :: rest)
    else c :: collapseSpaces (d :: rest)

/-- Helper for the second regex of `_clean_text_content`: after an opening
newline, try to consume `[ \t]*` followed by a closing newline, returning the
remaining characters on success. -/
def nlGap (l : Str) : Option Str :=
  match l.dropWhile isSpaceTab with
  | '\n' :: rest => some rest
  | _ => none

/-- Second regex of `_clean_text_content`:
`re.sub(r'\n[ \t]*\n', '\n\n', text)` with Python's left-to-right
non-overlapping replacement (scanning resumes after each match). -/
def collapseNlGaps : Str → Str
  | [] => []
  | c :: rest =>
    if c = '\n' then
      match h : nlGap rest with
      | some rem => '\n' :: '\n' :: collapseNlGaps rem
      | none => '\n' :: collapseNlGaps rest
    else c :: collapseNlGaps rest
termination_by l => l.length
decreasing_by
  · simp only [nlGap] at h
    split at h
    · cases h
      have h1 : (rest.dropWhile isSpaceTab).length ≤ rest.length :=
        (List.dropWhile_sublist isSpaceTab).length_le
      rename_i heq
      simp only [List.length_cons]
      rw [heq] at h1
      simp only [List.length_cons] at h1
      omega
    · cases h
  · simp
  · simp

/-- Third regex of `_clean_text_content`: `re.sub(r'\n{3,}', '\n\n', text)` —
each maximal run of three or more newlines becomes exactly two. -/
def collapseNlRuns : Str → Str
  | [] => []
  | c :: rest =>
    if c = '\n' then
      let k := 1 + (rest.takeWhile (fun x => decide (x = '\n'))).length
      let after := rest.dropWhile (fun x => decide (x = '\n'))
      (if 3 ≤ k then ['\n', '\n'] else List.replicate k '\n') ++ collapseNlRuns after
    else c :: collapseNlRuns rest
termination_by l => l.length
decreasing_by
  · have h1 : (rest.dropWhile (fun x => decide (x = '\n'))).length ≤ rest.length :=
      (List.dropWhile_sublist _).length_le
    simp only [List.length_cons]
    omega
  · simp

/-- The three whitespace-normalisation substitutions of `_clean_text_content`,
in source order. -/
def normalizeWs (t : Str) : Str := collapseNlRuns (collapseNlGaps (collapseSpaces t))

/-- The marker appended by `_clean_text_content` when truncating. -/
def TRUNCATION_MARKER : Str := "... [content truncated]".data

/-- The truncation step of `_clean_text_content`:
`if len(text) > MAX_EXTRACTED_TEXT_LENGTH: text = text[:MAX] + marker`. -/
def truncStep (t : Str) : Str :=
  if MAX_EXTRACTED_TEXT_LENGTH < t.length then
    t.take MAX_EXTRACTED_TEXT_LENGTH ++ TRUNCATION_MARKER
  else t

/-- `WebContentFetcher._clean_text_content`, translated from the source:
empty guard, whitespace normalisation, length-capped truncation with marker,
final `strip()`. -/
def clean_text_content (t : Str) : Str :=
  if t.isEmpty then []
  else pyStrip (truncStep (normalizeWs t))

/-- The `strong_patterns` list inside `_needs_javascript_rendering`
(weight 2 each, matched against the lowercased markup). -/
def strongPatterns : List Str :=
  ["__next_data__".data, "window.__nuxt__".data, "data-reactroot".data,
   "ng-app".data, "v-app".data, "<div id=\"root\"></div>".data, "<div id=\"app\"></div>".data]

/-- The `medium_patterns` list inside `_needs_javascript_rendering`
(weight 1 each). -/
def mediumPatterns : List Str :=
  ["this page requires javascript".data, "please enable javascript".data,
   "javascript is required".data, "loading...".data, "please wait...".data]

/-- The `js_indicators` accumulation of `_needs_javascript_rendering`,
translated fold by fold from the source: strong patterns add 2, medium
patterns add 1, a visible-text ratio below 5 percent adds 2 (below 10
percent adds 1), and a body with at most 3 direct children and under 500
visible characters adds 1. -/
def jsScore (soup : SoupEnv) (content : Str) : Nat :=
  let cl := pyLower content
  let s1 := strongPatterns.foldl (fun acc p => if strIn p cl then acc + 2 else acc) 0
  let s2 := mediumPatterns.foldl (fun acc p => if strIn p cl then acc + 1 else acc) s1
  let vlen := (pyStrip (soup.textOf content)).length
  let hlen := content.length
  let s3 :=
    if 0 < hlen then
      if (vlen : ℚ) / (hlen : ℚ) < 1 / 20 then s2 + 2
      else if (vlen : ℚ) / (hlen : ℚ) < 1 / 10 then s2 + 1
      else s2
    else s2
  match soup.bodyChildrenOf content with
  | some k => if k ≤ 3 ∧ vlen < 500 then s3 + 1 else s3
  | none => s3

/-- `WebContentFetcher._needs_javascript_rendering`: markup that is empty or
whose stripped length is under 300 characters is presumed render-dependent;
otherwise the weighted score must reach 2. -/
def needs_javascript_rendering (soup : SoupEnv) (content : Str) : Bool :=
  if content.isEmpty || decide ((pyStrip content).length < 300) then true
  else decide (2 ≤ jsScore soup content)

/-- The result dictionary produced by the extraction routines.
`javascript_rendered` is `none` for the JSON and plain-text dictionaries,
which do not carry that key. -/
structure FetchResult where
  url : Str
  title : Str
  description : Str
  content : Str
  content_type : Str
  links : List Link
  word_count : Nat
  status : Str
  javascript_rendered : Option Bool
deriving DecidableEq

/-- `WebContentFetcher._extract_html_content_static`, translated from the
source.  `extractMain` stands for `_extract_content_with_2025_best_practices`
(instantiated with `extract2025` below in the orchestrator model), `body` is
the decoded markup being extracted and `jsRendered` the
`javascript_rendered` flag passed by the caller. -/
def extract_html_content_static (soup : SoupEnv) (uj : Str → Str → Str)
    (extractMain : Str → Str) (body : Str) (u : URL) (jsRendered : Bool) : FetchResult :=
  let main_content := extractMain body
  { url := u.raw
    title := extract_title soup body
    description := extract_description soup body
    content := main_content
    content_type := "text/html".data
    links := if EXTRACT_LINKS then extract_links uj (soup.anchorsOf body) u.raw else []
    word_count := if main_content.isEmpty then 0 else wordCount main_content
    status := if jsRendered then "success_js_rendered".data else "success".data
    javascript_rendered := some jsRendered }

/-- `WebContentFetcher._extract_json_content`, translated from the source.
`dump` models `json.dumps(response.json(), indent=2, ensure_ascii=False)`
(both external library calls); note the source computes `word_count` from the
full dump while `content` is the dump truncated to
`MAX_EXTRACTED_TEXT_LENGTH`. -/
def extract_json_content (u : URL) (dump : Str) : FetchResult :=
  { url := u.raw
    title := "JSON Content from ".data ++ u.netloc
    description := "JSON data content".data
    content := dump.take MAX_EXTRACTED_TEXT_LENGTH
    content_type := "application/json".data
    links := []
    word_count := wordCount dump
    status := "success".data
    javascript_rendered := none }

/-- An HTTP response, reduced to the data the fetch loop inspects.
`contentType` is the raw `content-type` header (`none` when absent),
`contentLength` the parsed `content-length` header, `decodedBody` the result
of `_detect_and_decode_content` (charset detection is an external library)
and `jsonDump` the pretty-printed serialisation of `response.json()` when the
body parses as JSON. -/
structure Response where
  contentType : Option Str
  contentLength : Option Nat
  decodedBody : Str
  jsonDump : Option Str

/-- `WebContentFetcher._extract_plain_content`, translated from the source. -/
def extract_plain_content (u : URL) (r : Response) : FetchResult :=
  let content := r.decodedBody.take MAX_EXTRACTED_TEXT_LENGTH
  { url := u.raw
    title := "Text Content from ".data ++ u.netloc
    description := "Plain text content".data
    content := content
    content_type := r.contentType.getD "text/plain".data
    links := []
    word_count := wordCount content
    status := "success".data
    javascript_rendered := none }

/-- Oracle results of the external extraction libraries used by
`_extract_content_with_2025_best_practices`: trafilatura (`html2txt` and
`extract(favor_recall=True)`), readability-lxml, and the BeautifulSoup
fallbacks (`selectorText i` is the `get_text` of the element found by the
`i`-th content selector, `bodyText` the body text after navigation removal,
`fullText` the full-document text).  `none` stands for an exception,
unavailable library or missing element; `bs4Ok` is false when the whole
BeautifulSoup block raises. -/
structure ExtractorEnv where
  trafAvailable : Bool
  html2txt : Str → Option Str
  extractRecall : Str → Option Str
  readabilityText : Str → Option Str
  bs4Ok : Str → Bool
  selectorText : Str → Nat → Option Str
  bodyText : Str → Option Str
  fullText : Str → Str

/-- The selector loop of `_extract_content_with_2025_best_practices`:
return the text of the first selector whose element exists and whose text
exceeds 50 characters. -/
def selLoop (f : Nat → Option Str) : List Nat → Option Str
  | [] => none
  | i :: rest =>
    match f i with
    | some t => if 50 < t.length then some t else selLoop f rest
    | none => selLoop f rest

/-- `WebContentFetcher._extract_content_with_2025_best_practices`, translated
branch by branch from the source: trafilatura `html2txt` (kept when its
stripped length exceeds 100), trafilatura with recall (kept above 50),
readability (kept above 50), the BeautifulSoup selector chain (raw length
above 50), the body fallback (above 50), the full-document fallback, and the
fixed failure string when the BeautifulSoup block raises. -/
def extract2025 (env : ExtractorEnv) (html : Str) : Str :=
  let method3 : Str :=
    if env.bs4Ok html then
      match selLoop (env.selectorText html) [0, 1, 2, 3, 4, 5, 6] with
      | some t => clean_text_content t
      | none =>
        match env.bodyText html with
        | some bt =>
          if 50 < bt.length then clean_text_content bt
          else clean_text_content (env.fullText html)
        | none => clean_text_content (env.fullText html)
    else "Content extraction failed".data
  let method2 : Str :=
    match env.readabilityText html with
    | some c => if 50 < (pyStrip c).length then clean_text_content c else method3
    | none => method3
  let tryRecall : Str :=
    match env.extractRecall html with
    | some rc => if 50 < (pyStrip rc).length then clean_text_content rc else method2
    | none => method2
  if env.trafAvailable then
    match env.html2txt html with
    | some t => if 100 < (pyStrip t).length then clean_text_content t else tryRecall
    | none => tryRecall
  else method2

/-- A browser profile drawn from `BROWSER_PROFILES`. -/
structure Profile where
  profile_name : Str
  user_agent : Str
  headers : List (Str × Str)
deriving DecidableEq

/-- Python dict update `headers[k] = v`: replace the value when the key is
present, otherwise append the pair. -/
def setHeader (hs : List (Str × Str)) (k v : Str) : List (Str × Str) :=
  if hs.any (fun p => p.1 = k) then hs.map (fun p => if p.1 = k then (k, v) else p)
  else hs ++ [(k, v)]

/-- The header state obtained by clearing a client's headers, updating with a
profile's header set and setting its `User-Agent` (the sequence performed on
both the fallback `requests` session and the `httpx` client). -/
def applyProfile (p : Profile) : List (Str × Str) :=
  setHeader p.headers "User-Agent".data p.user_agent

/-- One entry of `retry_attempt_history`. -/
structure RetryInfo where
  attempt : Nat
  error : Str
  error_type : Str
  delay : ℚ
  strategy : Str
deriving DecidableEq

/-- The mutable state of a `WebContentFetcher` that the fetch loop touches:
the domain session pool (modelled by its set of domain keys in creation
order), the fallback session's headers, the httpx client's headers, the
current browser profile, the retry history and the configured strategy. -/
structure FetchState where
  session_pool : List Str
  sessionHeaders : List (Str × Str)
  httpxHeaders : List (Str × Str)
  browser_profile : Profile
  retry_attempt_history : List RetryInfo
  retry_strategy : Str
deriving DecidableEq

/-- Session-pool effect of `_get_domain_session`: lazily create (here:
record) a session for the request's domain. -/
def addDomain (st : FetchState) (d : Str) : FetchState :=
  if st.session_pool.contains d then st
  else { st with session_pool := st.session_pool ++ [d] }

/-- The rotation block of the retry branch in `fetch_content`: append the
retry record, clear every domain session, apply the newly drawn profile's
header set (and user agent) to the fallback session and the httpx client,
and install the new profile. -/
def rotateState (st : FetchState) (p : Profile) (e : PyExc) (attempt : Nat) (delay : ℚ) :
    FetchState :=
  { st with
    session_pool := []
    sessionHeaders := applyProfile p
    httpxHeaders := applyProfile p
    browser_profile := p
    retry_attempt_history :=
      st.retry_attempt_history ++
        [{ attempt := attempt + 1, error := e.msg, error_type := e.name,
           delay := delay, strategy := st.retry_strategy }] }

/-- The oracles a fetch interacts with: the transport result of each attempt,
the profile drawn on each rotation, the jitter sample of each attempt, the
JavaScript renderer's output, and the parsing/extraction environments. -/
structure FetchEnv where
  transport : Nat → Except PyExc Response
  profiles : Nat → Profile
  jitter : Nat → ℚ
  render : Nat → Option Str
  soup : SoupEnv
  extractor : ExtractorEnv
  urljoin : Str → Str → Str

/-- Outcome of `fetch_content`: a result dictionary, a raised `ValueError`
(invalid URL, unsupported type, oversized content, invalid JSON), the
`Exception` raised when the retry budget is exhausted on a retriable error
(whose message embeds the last underlying error), or the bare
`Exception('Unexpected error in fetch_content')` reached through the `break`
that follows a non-retriable error. -/
inductive FetchOutcome where
  | success (r : FetchResult)
  | valueError (msg : Str)
  | exhausted (msg : Str)
  | unexpected
deriving DecidableEq

/-- The content-type / size checks and content-type dispatch performed on a
usable response (lines 441-482 of `fetch_api.py`): unsupported type and
oversized content raise `ValueError`; `text/html` goes through the render
decision and static extraction; `application/json` through JSON extraction
(raising `ValueError` when the body does not parse); everything else through
plain-text extraction. -/
def dispatchResponse (env : FetchEnv) (u : URL) (attempt : Nat) (r : Response) :
    Except Str FetchResult :=
  let ct := pyLower (r.contentType.getD [])
  if !is_supported_content_type ct then
    .error ("Unsupported content type: ".data ++ ct)
  else if (match r.contentLength with
           | some n => decide (MAX_CONTENT_SIZE < n)
           | none => false) then
    .error "Content too large".data
  else if strIn "text/html".data ct then
    let raw := r.decodedBody
    if needs_javascript_rendering env.soup raw && JS_RENDERING_ENABLED then
      match env.render attempt with
      | some js =>
        .ok (extract_html_content_static env.soup env.urljoin (extract2025 env.extractor) js u true)
      | none =>
        .ok (extract_html_content_static env.soup env.urljoin (extract2025 env.extractor) raw u false)
    else
      .ok (extract_html_content_static env.soup env.urljoin (extract2025 env.extractor) raw u false)
  else if strIn "application/json".data ct then
    match r.jsonDump with
    | some d => .ok (extract_json_content u d)
    | none => .error "Invalid JSON content".data
  else .ok (extract_plain_content u r)

/-- The retry loop of `fetch_content` (`for attempt in range(MAX_RETRY_ATTEMPTS)`),
translated from the source.  The second component of the result is the trace
of fetcher states at entry of each executed attempt (one entry per transport
invocation).  On a transport exception: retriable with budget left rotates
the identity and continues; non-retriable breaks out of the loop, reaching
the bare trailing `raise Exception('Unexpected error in fetch_content')`;
retriable on the last attempt raises the exhaustion message carrying the
underlying error. -/
def fetchGo (env : FetchEnv) (u : URL) : Nat → Nat → FetchState → FetchOutcome × List FetchState
  | _, 0, _ => (.unexpected, [])
  | attempt, r + 1, st =>
    let st1 := addDomain st u.netloc
    match env.transport attempt with
    | .ok resp =>
      match dispatchResponse env u attempt resp with
      | .ok res => (.success res, [st])
      | .error m => (.valueError m, [st])
    | .error e =>
      if decide (attempt < MAX_RETRY_ATTEMPTS - 1) && is_retriable_error e none then
        let p := env.profiles attempt
        let delay := calculate_retry_delay st.retry_strategy attempt (env.jitter attempt)
        let next := fetchGo env u (attempt + 1) r (rotateState st1 p e attempt delay)
        (next.1, st :: next.2)
      else if !is_retriable_error e none then (.unexpected, [st])
      else (.exhausted ("Failed to fetch URL after 5 attempts: ".data ++ e.msg), [st])

/-- `WebContentFetcher.fetch_content`: URL validation followed by the retry
loop.  The state trace is empty exactly when no transport attempt was made. -/
def fetch_content (env : FetchEnv) (u : URL) (st : FetchState) :
    FetchOutcome × List FetchState :=
  if !is_valid_url u then (.valueError ("Invalid URL format: ".data ++ u.raw), [])
  else fetchGo env u 0 MAX_RETRY_ATTEMPTS st

/-- Modelled from the spec: the claim's reading of the content-type policy —
a declared type is allowed when it matches an allow-list entry exactly or by
that entry leading the type, or when the type itself starts with `text/`. -/
def specAllowedContentType (ct : Str) : Bool :=
  SUPPORTED_CONTENT_TYPES.any (fun t => strStarts t ct) || strStarts "text/".data ct

/-- Modelled from the spec: the claim's retriable exception categories
(connection, timeout, TLS, too-many-redirects, decoding) as exception class
names — note this list has no `HTTPError`. -/
def specRetriableCategories : List Str :=
  ["ConnectionError".data, "Timeout".data, "SSLError".data, "TooManyRedirects".data,
   "ChunkedEncodingError".data, "ContentDecodingError".data]

/-- Modelled from the spec: the claim's retriability predicate — status code
in the retriable set, or exception category in the claim's category list, or
a keyword of the conservative vocabulary occurring in the lowercased
message. -/
def specRetriable (e : PyExc) (respStatus : Option Nat) : Bool :=
  (match respStatus with
   | some code => RETRIABLE_STATUS_CODES.contains code
   | none => false) ||
  specRetriableCategories.contains e.name ||
  retriablePatterns.any (fun p => strIn p (pyLower e.msg))

/-- Modelled from the spec: the claim's weighted render-need score — strong
markers count 2 each, medium markers 1 each, a text-to-markup ratio below 5
percent adds 2 (below 10 percent adds 1), and a body with at most 3 direct
children and under 500 visible characters adds 1. -/
def specScore (soup : SoupEnv) (content : Str) : Nat :=
  let cl := pyLower content
  let vlen := (pyStrip (soup.textOf content)).length
  2 * strongPatterns.countP (fun p => strIn p cl) +
    mediumPatterns.countP (fun p => strIn p cl) +
    (if (vlen : ℚ) / (content.length : ℚ) < 1 / 20 then 2
     else if (vlen : ℚ) / (content.length : ℚ) < 1 / 10 then 1
     else 0) +
    (match soup.bodyChildrenOf content with
     | some k => if k ≤ 3 ∧ vlen < 500 then 1 else 0
     | none => 0)

/-- A minimal concrete browser profile for concrete evaluations. -/
def cProfile : Profile :=
  { profile_name := "chrome_windows".data
    user_agent := "UA".data
    headers := [("Accept".data, "text/html".data)] }

/-- A trivial soup environment for concrete evaluations. -/
def cSoup : SoupEnv :=
  { anchorsOf := fun _ => []
    titleOf := fun _ => none
    h1Of := fun _ => none
    metaDescOf := fun _ => none
    ogDescOf := fun _ => none
    textOf := fun _ => []
    bodyChildrenOf := fun _ => none }

/-- A trivial extractor environment for concrete evaluations. -/
def cExtractor : ExtractorEnv :=
  { trafAvailable := false
    html2txt := fun _ => none
    extractRecall := fun _ => none
    readabilityText := fun _ => none
    bs4Ok := fun _ => false
    selectorText := fun _ _ => none
    bodyText := fun _ => none
    fullText := fun _ => [] }

/-- The fetcher state produced by `WebContentFetcher.__init__` when the drawn
profile is `cProfile` and the default strategy is configured. -/
def initState : FetchState :=
  { session_pool := []
    sessionHeaders := applyProfile cProfile
    httpxHeaders := applyProfile cProfile
    browser_profile := cProfile
    retry_attempt_history := []
    retry_strategy := "exponential_backoff".data }

/-- A valid URL for concrete evaluations. -/
def cUrl : URL :=
  { raw := "http://example.com/p".data, scheme := "http".data, netloc := "example.com".data }

/-- An invalid URL (ftp scheme) for concrete evaluations. -/
def cBadUrl : URL :=
  { raw := "ftp://example.com".data, scheme := "ftp".data, netloc := "example.com".data }

/-- An environment whose transport always fails with a retriable connection
error. -/
def cEnvRetriable : FetchEnv :=
  { transport := fun _ => .error ⟨"ConnectionError".data, "connection reset".data⟩
    profiles := fun _ => cProfile
    jitter := fun _ => 0
    render := fun _ => none
    soup := cSoup
    extractor := cExtractor
    urljoin := fun _ h => h }

/-- An environment whose transport always fails with a non-retriable error
(an exception class outside `RETRIABLE_EXCEPTIONS` whose message contains no
retriable keyword). -/
def cEnvNonRetriable : FetchEnv :=
  { cEnvRetriable with
    transport := fun _ => .error ⟨"MissingSchema".data, "no scheme supplied".data⟩ }

/-- The first trace entry after the first attempt in the always-retriable
concrete run (used to evaluate the rotation invariant at a concrete point). -/
def cTraceState : FetchState :=
  (((fetch_content cEnvRetriable cUrl initState).2).tail).headD initState

/-- Characterisation of `strStarts`: it holds exactly when the second string
extends the first. -/
theorem strStarts_iff (pre s : Str) : strStarts pre s = true ↔ ∃ t, pre ++ t = s := by
  induction pre generalizing s with
  | nil => simp [strStarts]
  | cons a as ih =>
    cases s with
    | nil => simp [strStarts]
    | cons b bs =>
      simp only [strStarts, Bool.and_eq_true, decide_eq_true_eq, ih, List.cons_append,
        List.cons.injEq]
      constructor
      · rintro ⟨rfl, t, rfl⟩; exact ⟨t, rfl, rfl⟩
      · rintro ⟨t, rfl, rfl⟩; exact ⟨rfl, t, rfl⟩

/-- Characterisation of the Python substring test `strIn`. -/
theorem strIn_iff (sub s : Str) : strIn sub s = true ↔ ∃ l r, l ++ sub ++ r = s := by
  induction s with
  | nil =>
    simp only [strIn, List.isEmpty_iff]
    constructor
    · rintro rfl; exact ⟨[], [], rfl⟩
    · rintro ⟨l, r, h⟩
      rcases List.append_eq_nil.mp h with ⟨hls, hr⟩
      exact (List.append_eq_nil.mp hls).2
  | cons c cs ih =>
    simp only [strIn, Bool.or_eq_true, strStarts_iff, ih]
    constructor
    · rintro (⟨t, ht⟩ | ⟨l, r, h⟩)
      · exact ⟨[], t, by simpa using ht⟩
      · exact ⟨c :: l, r, by simp [h]⟩
    · rintro ⟨l, r, h⟩
      cases l with
      | nil => exact Or.inl ⟨r, by simpa using h⟩
      | cons x xs =>
        right
        rcases List.cons.inj h with ⟨rfl, h2⟩
        exact ⟨xs, r, h2⟩

/-- A string that starts with `pre` also contains `pre` as a substring. -/
theorem strStarts_imp_strIn {pre s : Str} (h : strStarts pre s = true) : strIn pre s = true := by
  rcases (strStarts_iff pre s).mp h with ⟨t, rfl⟩
  exact (strIn_iff pre (pre ++ t)).mpr ⟨[], t, by simp⟩

/-- Claim C7: for every zero-based attempt and every admissible jitter
sample, `_calculate_retry_delay` returns exactly the claimed schedule capped
at 60 seconds: exponential `base * 2 ^ attempt`, linear `base * (attempt+1)`,
Fibonacci `base * fib(attempt)` from the table `{1,1,2,3,5,8,13,21,34}`
clamped at its end (the table entry is the `(attempt+1)`-st Fibonacci
number), and jitter `base * (attempt+1)` plus the sampled noise of magnitude
at most 30 percent, floored at 1 second. -/
theorem C7_retry_delay_schedule (a : Nat) (j : ℚ) :
    calculate_retry_delay "exponential_backoff".data a j = min (RETRY_DELAY * 2 ^ a) 60 ∧
    calculate_retry_delay "linear_progression".data a j = min (RETRY_DELAY * (a + 1)) 60 ∧
    calculate_retry_delay "fibonacci_sequence".data a j
      = min (RETRY_DELAY * (Nat.fib (min a 8 + 1) : ℚ)) 60 ∧
    (|j| ≤ 3 / 10 * (RETRY_DELAY * (a + 1)) →
      calculate_retry_delay "random_jitter".data a j
          = min (max 1 (RETRY_DELAY * (a + 1) + j)) 60 ∧
      1 ≤ calculate_retry_delay "random_jitter".data a j) := by
  have hfib : ∀ m : Nat, m ≤ 8 → fibSequence.getD m 0 = (Nat.fib (m + 1) : ℚ) := by
    intro m hm
    interval_cases m <;> decide
  refine ⟨?_, ?_, ?_, ?_⟩
  · simp only [calculate_retry_delay, if_true]
  · simp only [calculate_retry_delay]
    rw [if_neg (by decide), if_true]
  · simp only [calculate_retry_delay]
    rw [if_neg (by decide), if_neg (by decide), if_true]
    have hlen : fibSequence.length - 1 = 8 := by decide
    rw [hlen, hfib (min a 8) (Nat.min_le_right a 8)]
  · intro hj
    simp only [calculate_retry_delay]
    rw [if_neg (by decide), if_neg (by decide), if_neg (by decide), if_true]
    exact ⟨rfl, le_min (le_max_left 1 _) (by norm_num)⟩

/-- Witness for C7 at attempt 0 with a zero jitter sample. -/
theorem C7_retry_delay_schedule_witness :
    calculate_retry_delay "random_jitter".data 0 0
        = min (max 1 (RETRY_DELAY * (0 + 1) + 0)) 60 ∧
    1 ≤ calculate_retry_delay "random_jitter".data 0 0 :=
  (C7_retry_delay_schedule 0 0).2.2.2 (by norm_num [RETRY_DELAY])

/-- Counterexample to claim C2: the declared type `image/svg+xml` matches no
allow-list entry exactly or as a leading piece and does not start with
`text/`, so the claim predicts `UnsupportedContentType`, yet
`_is_supported_content_type` accepts it (its substring checks find `xml`). -/
theorem C2_counterexample :
    specAllowedContentType "image/svg+xml".data = false ∧
    is_supported_content_type "image/svg+xml".data = true := by
  decide

/-- Claim C2 (amended): acceptance is by substring containment, not
exact-or-leading match — a declared type is accepted exactly when some
allow-list entry occurs inside it, or it starts with `text/`, or it contains
`json` or `xml`; in particular everything the claim's allow-list reading
accepts is indeed accepted, but some types outside it are accepted too. -/
theorem C2_content_type_amended :
    (∀ ct : Str, is_supported_content_type ct = true ↔
      ((∃ t ∈ SUPPORTED_CONTENT_TYPES, ∃ l r, l ++ t ++ r = ct) ∨
       (∃ r, "text/".data ++ r = ct) ∨
       (∃ l r, l ++ "json".data ++ r = ct) ∨
       (∃ l r, l ++ "xml".data ++ r = ct))) ∧
    (∀ ct : Str, specAllowedContentType ct = true → is_supported_content_type ct = true) := by
  constructor
  · intro ct
    simp only [is_supported_content_type, Bool.or_eq_true, List.any_eq_true, strIn_iff,
      strStarts_iff, or_assoc]
  · intro ct h
    simp only [specAllowedContentType, Bool.or_eq_true, List.any_eq_true] at h
    simp only [is_supported_content_type, Bool.or_eq_true, List.any_eq_true]
    rcases h with ⟨t, ht, hst⟩ | hst
    · exact Or.inl (Or.inl (Or.inl ⟨t, ht, strStarts_imp_strIn hst⟩))
    · exact Or.inl (Or.inl (Or.inr hst))

/-- Witness for C2 (amended): the allow-list reading accepts `text/html`, and
so does the code. -/
theorem C2_content_type_amended_witness :
    is_supported_content_type "text/html".data = true :=
  C2_content_type_amended.2 ("text/html".data) (by decide)

/-- Counterexample to claim C3: an `HTTPError` exception with no response,
whose message contains no retriable keyword, triggers none of the claim's
three signals (its category is not connection, timeout, TLS,
too-many-redirects or decoding), yet `_is_retriable_error` classifies it
retriable because `HTTPError` is in the code's `RETRIABLE_EXCEPTIONS`. -/
theorem C3_counterexample :
    is_retriable_error ⟨"HTTPError".data, "server returned 403 forbidden".data⟩ none = true ∧
    specRetriable ⟨"HTTPError".data, "server returned 403 forbidden".data⟩ none = false := by
  decide

/-- Claim C3 (amended): a failure is classified retriable exactly when the
response status code is in the retriable set, or the exception class name is
in the code's retriable list — connection, timeout, TLS, too-many-redirects,
decoding errors, plus plain `HTTPError` — or the lowercased message contains
one of the nine conservative keywords. -/
theorem C3_retriable_amended (e : PyExc) (resp : Option Nat) :
    is_retriable_error e resp = true ↔
      ((∃ c, resp = some c ∧ c ∈ RETRIABLE_STATUS_CODES) ∨
       e.name ∈ RETRIABLE_EXCEPTIONS ∨
       ∃ p ∈ retriablePatterns, ∃ l r, l ++ p ++ r = pyLower e.msg) := by
  unfold is_retriable_error
  cases resp with
  | none =>
    simp only [reduceCtorEq, false_and, exists_false, false_or]
    rw [if_neg (by simp)]
    split
    · rename_i hc
      simp only [List.contains, List.elem_iff] at hc
      simp [hc]
    · rename_i hc
      simp only [List.contains, List.elem_iff] at hc
      simp only [List.any_eq_true, strIn_iff]
      tauto
  | some code =>
    by_cases hcode : RETRIABLE_STATUS_CODES.contains code = true
    · rw [if_pos hcode]
      simp only [List.contains, List.elem_iff] at hcode
      simp only [Option.some.injEq, true_iff]
      exact Or.inl ⟨code, rfl, hcode⟩
    · rw [if_neg hcode]
      simp only [List.contains, List.elem_iff] at hcode
      have hnost : ¬ ∃ c, (some code = some c) ∧ c ∈ RETRIABLE_STATUS_CODES := by
        rintro ⟨c, hc, hmem⟩
        cases Option.some.inj hc
        exact hcode hmem
      split
      · rename_i hc
        simp only [List.contains, List.elem_iff] at hc
        simp [hc]
      · rename_i hc
        simp only [List.contains, List.elem_iff] at hc
        simp only [List.any_eq_true, strIn_iff]
        constructor
        · intro hk
          exact Or.inr (Or.inr hk)
        · rintro (hst | hname | hk)
          · exact absurd hst hnost
          · exact absurd hname hc
          · exact hk

/-- Inside a token, a run of non-whitespace characters adds no new token. -/
theorem splitCount_replicate_inTok {c : Char} (hc : isPySpace c = false) (n : Nat) (t : Str) :
    splitCount (List.replicate n c ++ t) true = splitCount t true := by
  induction n with
  | zero => simp
  | succ n ih => simp [List.replicate_succ, splitCount, hc, ih]

/-- Outside a token, a non-empty run of non-whitespace characters opens
exactly one new token. -/
theorem splitCount_replicate_start {c : Char} (hc : isPySpace c = false) {n : Nat}
    (hn : 0 < n) (t : Str) :
    splitCount (List.replicate n c ++ t) false = 1 + splitCount t true := by
  obtain ⟨m, rfl⟩ : ∃ m, n = m + 1 := ⟨n - 1, by omega⟩
  simp [List.replicate_succ, splitCount, hc, splitCount_replicate_inTok hc]

/-- Counterexample to claim C1: for a JSON body whose pretty-printed
serialisation is 2,000,002 characters (2,000,000 letters, then a space and
one more letter), `_extract_json_content` reports `word_count = 2` (counted
on the full serialisation) while its `content` field is the serialisation
truncated to 2,000,000 characters, which has exactly 1 whitespace-separated
token. -/
theorem C1_counterexample :
    (extract_json_content cUrl
        (List.replicate MAX_EXTRACTED_TEXT_LENGTH 'a' ++ [' ', 'b'])).word_count ≠
      wordCount (extract_json_content cUrl
        (List.replicate MAX_EXTRACTED_TEXT_LENGTH 'a' ++ [' ', 'b'])).content := by
  have ha : isPySpace 'a' = false := by decide
  have hpos : 0 < MAX_EXTRACTED_TEXT_LENGTH := by decide
  have hwc : (extract_json_content cUrl
      (List.replicate MAX_EXTRACTED_TEXT_LENGTH 'a' ++ [' ', 'b'])).word_count = 2 := by
    show wordCount (List.replicate MAX_EXTRACTED_TEXT_LENGTH 'a' ++ [' ', 'b']) = 2
    unfold wordCount
    rw [splitCount_replicate_start ha hpos]
    decide
  have hct : (extract_json_content cUrl
      (List.replicate MAX_EXTRACTED_TEXT_LENGTH 'a' ++ [' ', 'b'])).content
        = List.replicate MAX_EXTRACTED_TEXT_LENGTH 'a' := by
    show (List.replicate MAX_EXTRACTED_TEXT_LENGTH 'a' ++ [' ', 'b']).take
        MAX_EXTRACTED_TEXT_LENGTH = List.replicate MAX_EXTRACTED_TEXT_LENGTH 'a'
    exact List.take_left' (List.length_replicate _ _)
  have hone : wordCount (List.replicate MAX_EXTRACTED_TEXT_LENGTH 'a') = 1 := by
    unfold wordCount
    have h := splitCount_replicate_start ha hpos ([] : Str)
    rw [List.append_nil] at h
    rw [h]
    decide
  rw [hwc, hct, hone]
  decide

/-- Claim C1 (amended): for the HTML and plain-text extraction paths,
`word_count` always equals the whitespace-token count of `content`; for the
JSON path the equality holds exactly because `word_count` is computed on the
full pretty-printed serialisation, so it agrees with `content` whenever the
serialisation is within the 2,000,000-character cap (and can disagree beyond
it). -/
theorem C1_word_count_amended :
    (∀ (soup : SoupEnv) (uj : Str → Str → Str) (extractMain : Str → Str) (body : Str)
        (u : URL) (jsR : Bool),
      (extract_html_content_static soup uj extractMain body u jsR).word_count
        = wordCount (extract_html_content_static soup uj extractMain body u jsR).content) ∧
    (∀ (u : URL) (r : Response),
      (extract_plain_content u r).word_count = wordCount (extract_plain_content u r).content) ∧
    (∀ (u : URL) (d : Str), d.length ≤ MAX_EXTRACTED_TEXT_LENGTH →
      (extract_json_content u d).word_count = wordCount (extract_json_content u d).content) := by
  refine ⟨?_, ?_, ?_⟩
  · intro soup uj extractMain body u jsR
    show (if (extractMain body).isEmpty then 0 else wordCount (extractMain body))
        = wordCount (extractMain body)
    by_cases h : (extractMain body).isEmpty
    · rw [if_pos h, List.isEmpty_iff.mp h]
      rfl
    · rw [if_neg h]
  · intro u r
    rfl
  · intro u d hd
    show wordCount d = wordCount (d.take MAX_EXTRACTED_TEXT_LENGTH)
    rw [List.take_of_length_le hd]

/-- Witness for C1 (amended) on a one-character JSON serialisation. -/
theorem C1_word_count_amended_witness :
    (extract_json_content cUrl "1".data).word_count
      = wordCount (extract_json_content cUrl "1".data).content :=
  C1_word_count_amended.2.2 cUrl ("1".data) (by decide)

/-- A conditional-increment fold is the start value plus the weight times the
number of matching elements. -/
theorem foldl_weight (w : Nat) (q : Str → Bool) (l : List Str) (n : Nat) :
    l.foldl (fun acc p => if q p then acc + w else acc) n = n + w * l.countP q := by
  induction l generalizing n with
  | nil => simp
  | cons p rest ih =>
    by_cases hq : q p <;> simp [List.foldl_cons, hq, ih, List.countP_cons] <;> ring

/-- On non-empty markup the sequential score accumulation of
`_needs_javascript_rendering` agrees with the claim's weighted-sum reading. -/
theorem jsScore_eq_specScore (soup : SoupEnv) (content : Str) (h : content ≠ []) :
    jsScore soup content = specScore soup content := by
  have hl : 0 < content.length := List.length_pos.mpr h
  simp only [jsScore, specScore, foldl_weight]
  rw [if_pos hl]
  rcases hbc : soup.bodyChildrenOf content with _ | k <;> simp only [hbc] <;> split_ifs <;> omega

/-- Claim C8: markup with stripped length under 300 is classified as needing
rendering; for longer markup the classifier returns true exactly when the
weighted indicator score reaches 2; and a single strong SPA marker alone
already forces a positive classification. -/
theorem C8_render_need (soup : SoupEnv) (content : Str) :
    ((pyStrip content).length < 300 → needs_javascript_rendering soup content = true) ∧
    (300 ≤ (pyStrip content).length →
      (needs_javascript_rendering soup content = true ↔ 2 ≤ specScore soup content)) ∧
    (strongPatterns.any (fun p => strIn p (pyLower content)) = true →
      needs_javascript_rendering soup content = true) := by
  refine ⟨?_, ?_, ?_⟩
  · intro h
    unfold needs_javascript_rendering
    simp [h]
  · intro h300
    have hne : content ≠ [] := by
      intro hc
      rw [hc] at h300
      simp [pyStrip] at h300
    have hcond : (content.isEmpty || decide ((pyStrip content).length < 300)) = false := by
      simp [List.isEmpty_iff, hne]
      omega
    unfold needs_javascript_rendering
    rw [hcond]
    simp only [Bool.false_eq_true, if_false, decide_eq_true_eq,
      jsScore_eq_specScore soup content hne]
  · intro hstrong
    by_cases hshort : (content.isEmpty || decide ((pyStrip content).length < 300)) = true
    · unfold needs_javascript_rendering
      rw [if_pos hshort]
    · unfold needs_javascript_rendering
      rw [if_neg hshort]
      have hne : content ≠ [] := by
        intro hc
        subst hc
        simp at hshort
      simp only [decide_eq_true_eq]
      rw [jsScore_eq_specScore soup content hne]
      have hpos : 0 < strongPatterns.countP (fun p => strIn p (pyLower content)) := by
        rw [List.countP_pos_iff]
        exact List.any_eq_true.mp hstrong
      have hbound : 2 * strongPatterns.countP (fun p => strIn p (pyLower content))
          ≤ specScore soup content := by
        simp only [specScore]
        rcases hbc : soup.bodyChildrenOf content with _ | k <;> simp only [hbc] <;>
          split_ifs <;> omega
      omega

set_option maxRecDepth 4000 in
/-- Witness for C8: a 2-character page is classified render-dependent, and a
300-character page carrying the strong marker `ng-app` is classified
render-dependent. -/
theorem C8_render_need_witness :
    needs_javascript_rendering cSoup "hi".data = true ∧
    needs_javascript_rendering cSoup ("ng-app".data ++ List.replicate 294 'a') = true :=
  ⟨(C8_render_need cSoup "hi".data).1 (by decide),
   (C8_render_need cSoup ("ng-app".data ++ List.replicate 294 'a')).2.2 (by decide)⟩

/-- A successful newline-gap match consumes at least one character. -/
theorem nlGap_some_length {l rem : Str} (h : nlGap l = some rem) : rem.length < l.length := by
  unfold nlGap at h
  split at h
  · rename_i heq
    cases h
    have h1 : (l.dropWhile isSpaceTab).length ≤ l.length :=
      (List.dropWhile_sublist isSpaceTab).length_le
    rw [heq] at h1
    simp only [List.length_cons] at h1
    omega
  · cases h

/-- Collapsing space runs never lengthens a string. -/
theorem collapseSpaces_length_le (l : Str) : (collapseSpaces l).length ≤ l.length := by
  induction l with
  | nil => simp [collapseSpaces]
  | cons c rest ih =>
    cases rest with
    | nil => by_cases h : isSpaceTab c = true <;> simp [collapseSpaces, h]
    | cons d rest2 =>
      by_cases h1 : isSpaceTab c = true <;> by_cases h2 : isSpaceTab d = true <;>
        simp only [List.length_cons] at ih <;> simp [collapseSpaces, h1, h2] <;> omega

/-- Collapsing newline gaps never lengthens a string. -/
theorem collapseNlGaps_length_le (l : Str) : (collapseNlGaps l).length ≤ l.length := by
  have H : ∀ (n : Nat) (l : Str), l.length ≤ n → (collapseNlGaps l).length ≤ l.length := by
    intro n
    induction n with
    | zero =>
      intro l hl
      have hnil : l = [] := List.eq_nil_of_length_eq_zero (Nat.le_zero.mp hl)
      subst hnil
      simp [collapseNlGaps]
    | succ n ih =>
      intro l hl
      cases l with
      | nil => simp [collapseNlGaps]
      | cons c rest =>
        simp only [List.length_cons] at hl
        by_cases hc : c = '\n'
        · subst hc
          simp only [collapseNlGaps]
          rw [if_true]
          split
          · rename_i rem hg2
            have hlt := nlGap_some_length hg2
            have hrec := ih rem (by omega)
            simp only [List.length_cons]
            omega
          · have hrec := ih rest (by omega)
            simp only [List.length_cons]
            omega
        · have hrec := ih rest (by omega)
          simp only [collapseNlGaps]
          rw [if_neg hc]
          simp only [List.length_cons]
          omega
  exact H l.length l le_rfl

/-- Collapsing long newline runs never lengthens a string. -/
theorem collapseNlRuns_length_le (l : Str) : (collapseNlRuns l).length ≤ l.length := by
  have H : ∀ (n : Nat) (l : Str), l.length ≤ n → (collapseNlRuns l).length ≤ l.length := by
    intro n
    induction n with
    | zero =>
      intro l hl
      have hnil : l = [] := List.eq_nil_of_length_eq_zero (Nat.le_zero.mp hl)
      subst hnil
      simp [collapseNlRuns]
    | succ n ih =>
      intro l hl
      cases l with
      | nil => simp [collapseNlRuns]
      | cons c rest =>
        simp only [List.length_cons] at hl
        by_cases hc : c = '\n'
        · subst hc
          have hsplit : (rest.takeWhile (fun x => decide (x = '\n'))).length
              + (rest.dropWhile (fun x => decide (x = '\n'))).length = rest.length := by
            conv_rhs => rw [← List.takeWhile_append_dropWhile (fun x => decide (x = '\n')) rest]
            rw [List.length_append]
          have hdle : (rest.dropWhile (fun x => decide (x = '\n'))).length ≤ rest.length :=
            (List.dropWhile_sublist _).length_le
          have hrec := ih (rest.dropWhile (fun x => decide (x = '\n'))) (by omega)
          simp only [collapseNlRuns]
          rw [if_true]
          rw [List.length_append]
          split_ifs with h3
          · simp only [List.length_cons, List.length_nil]
            omega
          · rw [List.length_replicate]
            simp only [List.length_cons]
            omega
        · have hrec := ih rest (by omega)
          simp only [collapseNlRuns]
          rw [if_neg hc]
          simp only [List.length_cons]
          omega
  exact H l.length l le_rfl

/-- The whole whitespace normalisation never lengthens a string. -/
theorem normalizeWs_length_le (t : Str) : (normalizeWs t).length ≤ t.length :=
  le_trans (collapseNlRuns_length_le _)
    (le_trans (collapseNlGaps_length_le _) (collapseSpaces_length_le t))

/-- Collapsing spaces is the identity on strings with no space or tab. -/
theorem collapseSpaces_id {l : Str} (h : ∀ c ∈ l, isSpaceTab c = false) :
    collapseSpaces l = l := by
  induction l with
  | nil => rfl
  | cons c rest ih =>
    have hc : isSpaceTab c = false := h c (List.mem_cons_self c rest)
    have hrest : ∀ x ∈ rest, isSpaceTab x = false := fun x hx => h x (List.mem_cons_of_mem c hx)
    cases rest with
    | nil => simp [collapseSpaces, hc]
    | cons d rest2 => simp [collapseSpaces, hc, ih hrest]

/-- Collapsing newline gaps is the identity on newline-free strings. -/
theorem collapseNlGaps_id {l : Str} (h : ∀ c ∈ l, c ≠ '\n') : collapseNlGaps l = l := by
  induction l with
  | nil => simp [collapseNlGaps]
  | cons c rest ih =>
    have hc : c ≠ '\n' := h c (List.mem_cons_self c rest)
    have hrest : ∀ x ∈ rest, x ≠ '\n' := fun x hx => h x (List.mem_cons_of_mem c hx)
    simp only [collapseNlGaps]
    rw [if_neg hc, ih hrest]

/-- Collapsing newline runs is the identity on newline-free strings. -/
theorem collapseNlRuns_id {l : Str} (h : ∀ c ∈ l, c ≠ '\n') : collapseNlRuns l = l := by
  induction l with
  | nil => simp [collapseNlRuns]
  | cons c rest ih =>
    have hc : c ≠ '\n' := h c (List.mem_cons_self c rest)
    have hrest : ∀ x ∈ rest, x ≠ '\n' := fun x hx => h x (List.mem_cons_of_mem c hx)
    simp only [collapseNlRuns]
    rw [if_neg hc, ih hrest]

/-- Whitespace normalisation is the identity on strings with no space, tab
or newline. -/
theorem normalizeWs_id {l : Str} (hsp : ∀ c ∈ l, isSpaceTab c = false)
    (hnl : ∀ c ∈ l, c ≠ '\n') : normalizeWs l = l := by
  rw [normalizeWs, collapseSpaces_id hsp, collapseNlGaps_id hnl, collapseNlRuns_id hnl]

/-- Normalisation of the empty string. -/
theorem normalizeWs_nil : normalizeWs [] = [] :=
  normalizeWs_id (by simp) (by simp)

/-- A run of letters is untouched by normalisation. -/
theorem normalizeWs_replicate_a (n : Nat) :
    normalizeWs (List.replicate n 'a') = List.replicate n 'a' :=
  normalizeWs_id (fun c hc => by rw [List.eq_of_mem_replicate hc]; decide)
    (fun c hc => by rw [List.eq_of_mem_replicate hc]; decide)

/-- A run of spaces collapses to a single space. -/
theorem collapseSpaces_replicate_space (n : Nat) :
    collapseSpaces (List.replicate (n + 1) ' ') = [' '] := by
  induction n with
  | zero => decide
  | succ n ih =>
    calc collapseSpaces (List.replicate (n + 1 + 1) ' ')
        = collapseSpaces (' ' :: ' ' :: List.replicate n ' ') := by
          rw [List.replicate_succ, List.replicate_succ]
      _ = collapseSpaces (' ' :: List.replicate n ' ') := by
          simp [collapseSpaces, isSpaceTab]
      _ = [' '] := by rw [← List.replicate_succ]; exact ih

/-- Counterexample to claim C9: an input of 2,000,001 spaces is over the
2,000,000-character limit, yet `_clean_text_content` returns the empty
string for it — the whitespace normalisation runs before the length check,
so no truncation happens and no marker is appended, contradicting the
claim's "truncated to exactly the limit plus the marker". -/
theorem C9_counterexample :
    MAX_EXTRACTED_TEXT_LENGTH
        < (List.replicate (MAX_EXTRACTED_TEXT_LENGTH + 1) ' ').length ∧
    clean_text_content (List.replicate (MAX_EXTRACTED_TEXT_LENGTH + 1) ' ') = [] ∧
    clean_text_content (List.replicate (MAX_EXTRACTED_TEXT_LENGTH + 1) ' ')
      ≠ (List.replicate (MAX_EXTRACTED_TEXT_LENGTH + 1) ' ').take MAX_EXTRACTED_TEXT_LENGTH
          ++ TRUNCATION_MARKER := by
  have hnorm : normalizeWs (List.replicate (MAX_EXTRACTED_TEXT_LENGTH + 1) ' ') = [' '] := by
    rw [normalizeWs, collapseSpaces_replicate_space,
      collapseNlGaps_id (by decide), collapseNlRuns_id (by decide)]
  have hclean : clean_text_content (List.replicate (MAX_EXTRACTED_TEXT_LENGTH + 1) ' ') = [] := by
    unfold clean_text_content
    rw [if_neg (by simp [List.isEmpty_iff]), hnorm]
    unfold truncStep
    rw [if_neg (by decide)]
    decide
  refine ⟨by simp, hclean, ?_⟩
  rw [hclean]
  intro hcontra
  have hlen := congrArg List.length hcontra
  simp only [List.length_nil, List.length_append, List.length_take,
    List.length_replicate] at hlen
  have hm : TRUNCATION_MARKER.length = 23 := by decide
  rw [hm] at hlen
  omega

/-- Claim C9 (amended): in `_clean_text_content`, normalisation runs first
and a final `strip()` runs last, so: input at or under the 2,000,000-char
limit comes back with no truncation marker appended (it is the stripped
normalised text); input whose normalised form exceeds the limit comes back
as the stripped concatenation of the first 2,000,000 normalised characters
and the marker; and the truncation step taken alone is idempotent. -/
theorem C9_truncation_amended (t : Str) :
    (t.length ≤ MAX_EXTRACTED_TEXT_LENGTH → clean_text_content t = pyStrip (normalizeWs t)) ∧
    (MAX_EXTRACTED_TEXT_LENGTH < (normalizeWs t).length →
      clean_text_content t
        = pyStrip ((normalizeWs t).take MAX_EXTRACTED_TEXT_LENGTH ++ TRUNCATION_MARKER)) ∧
    truncStep (truncStep t) = truncStep t := by
  have hnle : (normalizeWs t).length ≤ t.length := normalizeWs_length_le t
  refine ⟨?_, ?_, ?_⟩
  · intro hle
    unfold clean_text_content
    by_cases he : t.isEmpty = true
    · rw [if_pos he, List.isEmpty_iff.mp he, normalizeWs_nil]
      rfl
    · rw [if_neg he]
      unfold truncStep
      rw [if_neg (by omega)]
  · intro hgt
    unfold clean_text_content
    have hne : ¬ t.isEmpty = true := by
      intro he
      rw [List.isEmpty_iff.mp he, normalizeWs_nil] at hgt
      simp at hgt
    rw [if_neg hne]
    unfold truncStep
    rw [if_pos hgt]
  · by_cases h : MAX_EXTRACTED_TEXT_LENGTH < t.length
    · have h1 : truncStep t = t.take MAX_EXTRACTED_TEXT_LENGTH ++ TRUNCATION_MARKER := by
        unfold truncStep
        rw [if_pos h]
      have ht : (t.take MAX_EXTRACTED_TEXT_LENGTH).length = MAX_EXTRACTED_TEXT_LENGTH := by
        simp only [List.length_take]
        omega
      have hm : TRUNCATION_MARKER.length = 23 := by decide
      rw [h1]
      unfold truncStep
      rw [if_pos (by rw [List.length_append, ht, hm]; omega)]
      rw [List.take_left' ht]
    · have h1 : truncStep t = t := by
        unfold truncStep
        rw [if_neg h]
      rw [h1, h1]

/-- Witness for C9 (amended): a 5-character input comes back unmarked, and an
input of 2,000,001 letters (whose normalised form is itself and over the
limit) comes back as the truncated text plus the marker, stripped. -/
theorem C9_truncation_amended_witness :
    clean_text_content "hello".data = pyStrip (normalizeWs "hello".data) ∧
    clean_text_content (List.replicate (MAX_EXTRACTED_TEXT_LENGTH + 1) 'a')
      = pyStrip ((normalizeWs (List.replicate (MAX_EXTRACTED_TEXT_LENGTH + 1) 'a')).take
          MAX_EXTRACTED_TEXT_LENGTH ++ TRUNCATION_MARKER) :=
  ⟨(C9_truncation_amended "hello".data).1 (by decide),
   (C9_truncation_amended (List.replicate (MAX_EXTRACTED_TEXT_LENGTH + 1) 'a')).2.1 (by
      rw [normalizeWs_replicate_a]
      simp [List.length_replicate])⟩

/-- Claim C10: link extraction returns at most 100 links, each with a
non-empty text capped at 200 characters and an `http(s)`-leading URL; the
100 cap is applied to the anchor list before filtering (the result over all
anchors equals the result over just the first 100), and the configured
`MAX_LINKS_EXTRACT = 300` is strictly above the effective cap, playing no
role. -/
theorem C10_extract_links (uj : Str → Str → Str) (anchors : List Anchor) (base : Str) :
    (extract_links uj anchors base).length ≤ 100 ∧
    (∀ l ∈ extract_links uj anchors base,
      l.text ≠ [] ∧ l.text.length ≤ 200 ∧
      (strStarts "http://".data l.url = true ∨ strStarts "https://".data l.url = true)) ∧
    extract_links uj anchors base = extract_links uj (anchors.take 100) base ∧
    100 < MAX_LINKS_EXTRACT := by
  refine ⟨?_, ?_, ?_, by decide⟩
  · unfold extract_links
    refine le_trans (List.length_filterMap_le _ _) ?_
    simp [List.length_take]
  · intro l hl
    unfold extract_links at hl
    rcases List.mem_filterMap.mp hl with ⟨a, ha, hfa⟩
    simp only at hfa
    split at hfa
    · rename_i hcond
      cases hfa
      simp only [Bool.and_eq_true, Bool.not_eq_true', Bool.or_eq_true] at hcond
      obtain ⟨hne, hurl⟩ := hcond
      refine ⟨?_, by simp [List.length_take], hurl⟩
      intro hnil
      rcases List.take_eq_nil_iff.mp hnil with h200 | hside
      · exact absurd h200 (by decide)
      · rw [hside] at hne
        simp at hne
    · simp at hfa
  · unfold extract_links
    rw [List.take_take]
    simp

/-- Every attempt-entry state in a fetch trace is either the state the loop
was started with or a freshly rotated state: empty session pool and the
current profile's header set applied to both clients. -/
theorem fetchGo_mem_entry (env : FetchEnv) (u : URL) :
    ∀ (r a : Nat) (st : FetchState), ∀ s ∈ (fetchGo env u a r st).2,
      s = st ∨ (s.session_pool = [] ∧ s.sessionHeaders = applyProfile s.browser_profile ∧
        s.httpxHeaders = applyProfile s.browser_profile) := by
  intro r
  induction r with
  | zero =>
    intro a st s hs
    simp [fetchGo] at hs
  | succ r ih =>
    intro a st s hs
    cases htr : env.transport a with
    | ok resp =>
      cases hd : dispatchResponse env u a resp <;> simp [fetchGo, htr, hd] at hs <;>
        exact Or.inl hs
    | error e =>
      simp only [fetchGo, htr] at hs
      split at hs
      · simp only [List.mem_cons] at hs
        rcases hs with rfl | hs2
        · exact Or.inl rfl
        · rcases ih (a + 1) _ s hs2 with rfl | hP
          · exact Or.inr (by simp [rotateState])
          · exact Or.inr hP
      · split at hs <;> simp at hs <;> exact Or.inl hs

/-- Every attempt-entry state after the first in a fetch trace has an empty
session pool and the current profile's headers applied (each such entry is
produced by the rotation block). -/
theorem fetchGo_tail_rotated (env : FetchEnv) (u : URL) (r a : Nat) (st : FetchState) :
    ∀ s ∈ ((fetchGo env u a r st).2).tail,
      s.session_pool = [] ∧ s.sessionHeaders = applyProfile s.browser_profile ∧
        s.httpxHeaders = applyProfile s.browser_profile := by
  intro s hs
  cases r with
  | zero => simp [fetchGo] at hs
  | succ r =>
    cases htr : env.transport a with
    | ok resp =>
      cases hd : dispatchResponse env u a resp <;> simp [fetchGo, htr, hd] at hs
    | error e =>
      simp only [fetchGo, htr] at hs
      split at hs
      · simp only [List.tail_cons] at hs
        rcases fetchGo_mem_entry env u r (a + 1) _ s hs with rfl | hP
        · simp [rotateState]
        · exact hP
      · split at hs <;> simp at hs

/-- Claim C6: after every retriable transport failure that is followed by a
further attempt, the identity rotation has already happened when that next
attempt starts — every trace entry after the first has an empty domain
session pool, and both the fallback session's and the httpx client's headers
equal the freshly drawn profile's header set (with its user agent). -/
theorem C6_rotation_before_next_attempt (env : FetchEnv) (u : URL) (st : FetchState) :
    ∀ s ∈ ((fetch_content env u st).2).tail,
      s.session_pool = [] ∧ s.sessionHeaders = applyProfile s.browser_profile ∧
        s.httpxHeaders = applyProfile s.browser_profile := by
  intro s hs
  unfold fetch_content at hs
  split at hs
  · simp at hs
  · exact fetchGo_tail_rotated env u MAX_RETRY_ATTEMPTS 0 st s hs

set_option maxRecDepth 16000 in
/-- Witness for C6: the entry state of the second attempt in the concrete
always-retriable run has an empty session pool and rotated headers.  (The
trace has five entries there, so its tail is non-empty and `cTraceState` is
its head.) -/
theorem C6_rotation_before_next_attempt_witness :
    cTraceState.session_pool = [] ∧
    cTraceState.sessionHeaders = applyProfile cTraceState.browser_profile ∧
    cTraceState.httpxHeaders = applyProfile cTraceState.browser_profile := by
  refine C6_rotation_before_next_attempt cEnvRetriable cUrl initState cTraceState ?_
  have hlen : ((fetch_content cEnvRetriable cUrl initState).2).tail.length = 4 := rfl
  rcases hT : ((fetch_content cEnvRetriable cUrl initState).2).tail with _ | ⟨x, xs⟩
  · rw [hT] at hlen
    simp at hlen
  · have hx : cTraceState = x := by
      unfold cTraceState
      rw [hT]
      rfl
    rw [hx]
    exact List.mem_cons_self x xs

/-- Claim C5: an invalid URL (wrong scheme or empty host) makes
`fetch_content` raise the `Invalid URL format` `ValueError` with an empty
attempt trace — the transport oracle is consulted zero times and no retry
state is touched. -/
theorem C5_invalid_url_no_transport (env : FetchEnv) (u : URL) (st : FetchState)
    (h : is_valid_url u = false) :
    fetch_content env u st
      = (.valueError ("Invalid URL format: ".data ++ u.raw), []) := by
  simp [fetch_content, h]

/-- Witness for C5 on a concrete `ftp` URL. -/
theorem C5_invalid_url_no_transport_witness :
    fetch_content cEnvRetriable cBadUrl initState
      = (.valueError ("Invalid URL format: ".data ++ cBadUrl.raw), []) :=
  C5_invalid_url_no_transport cEnvRetriable cBadUrl initState (by decide)

set_option maxRecDepth 16000 in
/-- Claim C4 (code bug): with a transport that always raises the
non-retriable `MissingSchema` exception (message `no scheme supplied`,
matching no retriable signal), the orchestrator takes the `break` after one
attempt and ends at the trailing bare
`raise Exception('Unexpected error in fetch_content')`: the outcome carries
neither the underlying error's message nor its type, contradicting the
claim that every transport-level failure surfaces as `TransportExhausted`
with the last underlying error. -/
theorem C4_nonretriable_error_lost :
    (fetch_content cEnvNonRetriable cUrl initState).1 = FetchOutcome.unexpected ∧
    (fetch_content cEnvNonRetriable cUrl initState).2.length = 1 := by
  decide

/-- Witness for C10: on a page with one relative anchor resolving to an
`https` URL, the single extracted link has non-empty text under the 200-char
cap and an `https`-leading URL. -/
theorem C10_extract_links_witness :
    (Link.mk "https://a.com/x".data "Click".data).text ≠ [] ∧
    (Link.mk "https://a.com/x".data "Click".data).text.length ≤ 200 ∧
    (strStarts "http://".data (Link.mk "https://a.com/x".data "Click".data).url = true ∨
     strStarts "https://".data (Link.mk "https://a.com/x".data "Click".data).url = true) :=
  (C10_extract_links (fun _ _ => "https://a.com/x".data)
      [Anchor.mk "/x".data "Click".data] "https://a.com/p".data).2.1
    (Link.mk "https://a.com/x".data "Click".data) (by decide)

end WebFetch
